import Mathlib

/-!
Shallow embedding of the KYC verification workflow of the cct-portal-frontend
repository, together with proofs checking the natural-language specification
against the code.

The embedding covers:
* the Redux kyc slice (src/store/slices/kycSlice.ts): document/summary data
  model and the reducers addDocument, removeDocument, uploadDocumentSuccess,
  deleteDocumentSuccess, startVerificationSuccess, startVerificationFailure;
* the client-side summary calculator KycApiService.calculateKycSummary
  (src/services/kycApi.ts);
* the KYC page handlers handleFileUpload and handleStartVerification
  (KYC upload page component), which keep their own local copies of the
  document/summary types with string-typed document types, as in the source.

JavaScript numbers are modelled with Nat where the source only ever produces
integers (Math.round of a nonnegative quotient) and with Rat where the source
stores a non-integer float (the page handler computes (total/3)*100 without
rounding).  At the operand sizes reachable here the float results coincide
with the exact rational results, since the fractional parts involved are
far from the rounding boundaries.
-/

namespace CctPortal

/-- Document type enumeration from kycSlice.ts. -/
inductive DocumentType where
  | ID_FRONT
  | ID_BACK
  | PASSPORT
  | DRIVER_LICENSE
  | UTILITY_BILL
  | BANK_STATEMENT
  deriving DecidableEq, Repr

/-- Per-document status union type from kycSlice.ts. -/
inductive DocStatus where
  | PENDING
  | UNDER_REVIEW
  | APPROVED
  | REJECTED
  deriving DecidableEq, Repr

/-- Aggregate KYC status union type from kycSlice.ts. -/
inductive KycStatus where
  | NOT_UPLOADED
  | PENDING
  | UNDER_REVIEW
  | APPROVED
  | REJECTED
  deriving DecidableEq, Repr

/-- Storage backend tag from kycSlice.ts. -/
inductive StorageType where
  | LOCAL
  | S3
  deriving DecidableEq, Repr

/-- KycDocument interface from kycSlice.ts. -/
structure KycDocument where
  id : String
  documentType : DocumentType
  fileName : String
  status : DocStatus
  uploadedAt : String
  updatedAt : String
  fileSize : Option Nat := none
  storageType : Option StorageType := none
  accessUrl : Option String := none
  deriving DecidableEq, Repr

/-- KycSummary interface from kycSlice.ts. -/
structure KycSummary where
  totalDocuments : Nat
  approvedDocuments : Nat
  pendingDocuments : Nat
  rejectedDocuments : Nat
  kycStatus : KycStatus
  kycProgress : Nat
  requiredDocuments : List DocumentType
  missingDocuments : List DocumentType
  canSubmitForReview : Bool
  deriving DecidableEq, Repr

/-- The kyc slice state from kycSlice.ts.  The requirements metadata field
(static catalog text shown in the UI) is never read or written by the
reducers studied here and is not carried in the model. -/
structure KycState where
  documents : List KycDocument
  summary : Option KycSummary
  uploadProgress : Nat
  loading : Bool
  uploading : Bool
  error : Option String
  deriving DecidableEq, Repr

/-- JavaScript Math.round (round half away from zero, here only applied to
nonnegative values) of the quotient a / b, computed exactly on naturals:
floor (a / b + 1 / 2) = (2 a + b) / (2 b). -/
def jsRound (a b : Nat) : Nat := (2 * a + b) / (2 * b)

/-- The constant requiredDocuments list hard-coded in
KycApiService.calculateKycSummary. -/
def requiredDocumentTypes : List DocumentType :=
  [.ID_FRONT, .UTILITY_BILL, .BANK_STATEMENT]

/-- KycApiService.calculateKycSummary from src/services/kycApi.ts, translated
clause by clause. -/
def calculateKycSummary (documents : List KycDocument) : KycSummary :=
  let requiredDocuments := requiredDocumentTypes
  let totalDocuments := documents.length
  let approvedDocuments := (documents.filter (fun d => decide (d.status = .APPROVED))).length
  let pendingDocuments := (documents.filter (fun d => decide (d.status = .PENDING))).length
  let rejectedDocuments := (documents.filter (fun d => decide (d.status = .REJECTED))).length
  let underReviewDocuments := (documents.filter (fun d => decide (d.status = .UNDER_REVIEW))).length
  let uploadedTypes := documents.map (·.documentType)
  let missingDocuments := requiredDocuments.filter (fun t => decide (t ∉ uploadedTypes))
  let uploadedRequiredDocs := (requiredDocuments.filter (fun t => decide (t ∈ uploadedTypes))).length
  let kycProgress := jsRound (uploadedRequiredDocs * 100) 3
  let kycStatus : KycStatus :=
    if totalDocuments = 0 then .NOT_UPLOADED
    else if missingDocuments.length > 0 then .PENDING
    else if underReviewDocuments > 0 ∨ (pendingDocuments > 0 ∧ missingDocuments.length = 0) then .UNDER_REVIEW
    else if approvedDocuments = requiredDocuments.length then .APPROVED
    else if rejectedDocuments > 0 then .REJECTED
    else .PENDING
  { totalDocuments := totalDocuments
    approvedDocuments := approvedDocuments
    pendingDocuments := pendingDocuments
    rejectedDocuments := rejectedDocuments
    kycStatus := kycStatus
    kycProgress := kycProgress
    requiredDocuments := requiredDocuments
    missingDocuments := missingDocuments
    canSubmitForReview :=
      decide (missingDocuments.length = 0) &&
      decide (kycStatus ≠ .UNDER_REVIEW) && decide (kycStatus ≠ .APPROVED) }

/-- List-level core of the addDocument reducer: replace the first document of
the same documentType if one exists (findIndex then assignment), otherwise
push at the end. -/
def addDoc (docs : List KycDocument) (payload : KycDocument) : List KycDocument :=
  match docs.findIdx? (fun doc => decide (doc.documentType = payload.documentType)) with
  | some i => docs.set i payload
  | none => docs ++ [payload]

/-- The addDocument reducer from kycSlice.ts. -/
def addDocument (st : KycState) (payload : KycDocument) : KycState :=
  { st with
    documents := addDoc st.documents payload
    uploading := false
    uploadProgress := 100 }

/-- The removeDocument reducer from kycSlice.ts: keep the documents whose id
differs from the payload. -/
def removeDocument (st : KycState) (docId : String) : KycState :=
  { st with documents := st.documents.filter (fun d => decide (d.id ≠ docId)) }

/-- The uploadDocumentSuccess reducer from kycSlice.ts: delegates to
addDocument, then, when a summary is present, recomputes its counts, its
progress from the total document count, its missing list, the
canSubmitForReview flag (emptiness of the missing list alone), and the
aggregate status from that flag. -/
def uploadDocumentSuccess (st : KycState) (payload : KycDocument) : KycState :=
  let st1 := addDocument st payload
  match st1.summary with
  | none => st1
  | some s =>
      let docs := st1.documents
      let uploadedTypes : List DocumentType := docs.map (·.documentType)
      let missing := s.requiredDocuments.filter (fun t => decide (t ∉ uploadedTypes))
      let canSubmit := decide (missing.length = 0)
      { st1 with summary := some { s with
          totalDocuments := docs.length
          pendingDocuments := (docs.filter (fun d => decide (d.status = .PENDING))).length
          approvedDocuments := (docs.filter (fun d => decide (d.status = .APPROVED))).length
          rejectedDocuments := (docs.filter (fun d => decide (d.status = .REJECTED))).length
          kycProgress := min (jsRound (docs.length * 100) 3) 100
          missingDocuments := missing
          canSubmitForReview := canSubmit
          kycStatus := if canSubmit then .UNDER_REVIEW else .PENDING } }

/-- The deleteDocumentSuccess reducer from kycSlice.ts: delegates to
removeDocument, clears loading, and recomputes the summary the same way as
uploadDocumentSuccess except that an empty store maps to NOT_UPLOADED. -/
def deleteDocumentSuccess (st : KycState) (docId : String) : KycState :=
  let st1 := { removeDocument st docId with loading := false }
  match st1.summary with
  | none => st1
  | some s =>
      let docs := st1.documents
      let uploadedTypes : List DocumentType := docs.map (·.documentType)
      let missing := s.requiredDocuments.filter (fun t => decide (t ∉ uploadedTypes))
      let canSubmit := decide (missing.length = 0)
      { st1 with summary := some { s with
          totalDocuments := docs.length
          pendingDocuments := (docs.filter (fun d => decide (d.status = .PENDING))).length
          approvedDocuments := (docs.filter (fun d => decide (d.status = .APPROVED))).length
          rejectedDocuments := (docs.filter (fun d => decide (d.status = .REJECTED))).length
          kycProgress := min (jsRound (docs.length * 100) 3) 100
          missingDocuments := missing
          canSubmitForReview := canSubmit
          kycStatus :=
            if docs.length = 0 then .NOT_UPLOADED
            else if canSubmit then .UNDER_REVIEW else .PENDING } }

/-- The startVerificationSuccess reducer from kycSlice.ts: clears loading,
forces the summary status to UNDER_REVIEW with progress 100, and moves every
PENDING document to UNDER_REVIEW with a fresh updatedAt timestamp.  The
timestamp produced by new Date at dispatch time is passed in as now. -/
def startVerificationSuccess (st : KycState) (now : String) : KycState :=
  { st with
    loading := false
    summary := st.summary.map (fun s => { s with kycStatus := .UNDER_REVIEW, kycProgress := 100 })
    documents := st.documents.map (fun d =>
      if d.status = .PENDING then { d with status := .UNDER_REVIEW, updatedAt := now } else d) }

/-- The startVerificationFailure reducer from kycSlice.ts. -/
def startVerificationFailure (st : KycState) (msg : String) : KycState :=
  { st with loading := false, error := some msg }

namespace KycPage

/-- The KYC page keeps its own local KycDocument interface whose documentType
is a plain string. -/
structure PageDocument where
  id : String
  documentType : String
  fileName : String
  status : DocStatus
  uploadedAt : String
  updatedAt : String
  fileSize : Option Nat := none
  storageType : Option StorageType := none
  deriving DecidableEq, Repr

/-- The KYC page local KycSummary interface (no requiredDocuments field,
string-typed missing list).  kycProgress is a Rat because the page handler
stores an unrounded quotient in it. -/
structure PageSummary where
  totalDocuments : Nat
  approvedDocuments : Nat
  pendingDocuments : Nat
  rejectedDocuments : Nat
  kycStatus : KycStatus
  kycProgress : Rat
  missingDocuments : List String
  canSubmitForReview : Bool
  deriving DecidableEq, Repr

/-- The React component state of the KYC page restricted to the fields the
verified handlers read or write (documents, summary, loading, uploading,
error); modal visibility and progress-bar state are pure UI. -/
structure PageState where
  documents : List PageDocument
  summary : Option PageSummary
  loading : Bool
  uploading : Bool
  error : Option String
  deriving DecidableEq, Repr

/-- Result reported by handleStartVerification: blocked by the early
canSubmitForReview guard (carrying the toast warning text), started
successfully, or failed on the network call. -/
inductive VerifyOutcome where
  | blocked (warning : String)
  | started
  | failedStart (msg : String)
  deriving DecidableEq, Repr

/-- Result reported by handleFileUpload. -/
inductive UploadOutcome where
  | noTypeSelected
  | failed (msg : String)
  | succeeded
  deriving DecidableEq, Repr

/-- Metadata of the browser File object handed to handleFileUpload. -/
structure FileMeta where
  name : String
  size : Nat
  deriving DecidableEq, Repr

/-- handleStartVerification from the KYC page component: returns early with a
toast warning when the summary is absent or its canSubmitForReview flag is
false; otherwise performs the startVerification network call (its outcome is
passed in, the network being external) and on success rewrites the summary
status to UNDER_REVIEW with progress 100. -/
def handleStartVerification (st : PageState) (api : Except String Unit) :
    PageState × VerifyOutcome :=
  if ((st.summary.map (·.canSubmitForReview)).getD false) = false then
    (st, .blocked "Please upload all required documents first")
  else
    match api with
    | .ok _ =>
        ({ st with
            loading := false
            error := none
            summary := st.summary.map (fun s =>
              { s with kycStatus := .UNDER_REVIEW, kycProgress := 100 }) },
          .started)
    | .error m => ({ st with loading := false, error := some m }, .failedStart m)

/-- handleFileUpload from the KYC page component.  The handler never inspects
the file metadata itself: it forwards the file to the upload service, whose
result (the stored document, or a thrown error message) is passed in as
uploadResult since the service call is a network round trip.  On success the
local list drops any document of the selected type and appends the result,
and the summary counters are patched in place (note the source derives
totalDocuments from the pre-upload list length plus one and stores the
unrounded quotient (total / 3) * 100 capped at 100 as progress). -/
def handleFileUpload (st : PageState) (file : FileMeta)
    (selectedDocumentType : Option String)
    (uploadResult : Except String PageDocument) : PageState × UploadOutcome :=
  match selectedDocumentType with
  | none => (st, .noTypeSelected)
  | some selType =>
      match uploadResult with
      | .error m => ({ st with uploading := false, error := some m }, .failed m)
      | .ok doc =>
          let documents :=
            st.documents.filter (fun x => decide (x.documentType ≠ selType)) ++ [doc]
          let summary := st.summary.map (fun s =>
            let total := st.documents.length + 1
            { s with
                totalDocuments := total
                pendingDocuments := s.pendingDocuments + 1
                missingDocuments := s.missingDocuments.filter (fun t => decide (t ≠ selType))
                kycProgress := min ((total : Rat) / 3 * 100) 100 })
          ({ st with
              documents := documents
              summary := summary
              uploading := false
              error := none },
            .succeeded)

end KycPage

/-! Claim-side definitions: these follow the words of the specification, to be
compared with the definitions translated from the source above. -/

/-- Status derivation exactly as the specification words it (spec section 4.3
rule 5, quoted by claim C1): empty store, then missing required types, then
any document under review or all required present with none yet reviewed,
then all required-type documents approved, then some required-type document
rejected with none pending or under review, else incomplete.  A document
counts as reviewed once a reviewer has decided it (Approved or Rejected). -/
def specStatusClaim (docs : List KycDocument) : KycStatus :=
  if docs = [] then .NOT_UPLOADED
  else if ∃ t ∈ requiredDocumentTypes, ∀ d ∈ docs, d.documentType ≠ t then .PENDING
  else if (∃ d ∈ docs, d.status = .UNDER_REVIEW) ∨
      ((∀ t ∈ requiredDocumentTypes, ∃ d ∈ docs, d.documentType = t) ∧
        ∀ d ∈ docs, d.status ≠ .APPROVED ∧ d.status ≠ .REJECTED) then .UNDER_REVIEW
  else if ∀ d ∈ docs, d.documentType ∈ requiredDocumentTypes → d.status = .APPROVED then .APPROVED
  else if (∃ d ∈ docs, d.documentType ∈ requiredDocumentTypes ∧ d.status = .REJECTED) ∧
      (∀ d ∈ docs, d.status ≠ .PENDING ∧ d.status ≠ .UNDER_REVIEW) then .REJECTED
  else .PENDING

/-- Status derivation the code actually implements, stated in the claim style
(quantifiers over the stored documents): as the spec, except that the
under-review rule fires as soon as any document is still Pending, the
approved rule compares the count of Approved documents (of any type) with the
number of required types, and the rejected rule looks at documents of any
type. -/
def amendedStatusSpec (docs : List KycDocument) : KycStatus :=
  if docs = [] then .NOT_UPLOADED
  else if ∃ t ∈ requiredDocumentTypes, ∀ d ∈ docs, d.documentType ≠ t then .PENDING
  else if (∃ d ∈ docs, d.status = .UNDER_REVIEW) ∨ (∃ d ∈ docs, d.status = .PENDING) then
    .UNDER_REVIEW
  else if docs.countP (fun d => decide (d.status = .APPROVED)) = requiredDocumentTypes.length then
    .APPROVED
  else if ∃ d ∈ docs, d.status = .REJECTED then .REJECTED
  else .PENDING

/-- Number of required types with at least one uploaded document, as worded
by claim C4. -/
def specUploadedRequiredCount (docs : List KycDocument) : Nat :=
  requiredDocumentTypes.countP (fun t => decide (∃ d ∈ docs, d.documentType = t))

/-- The progress formula of claim C4: round(100 x (required types uploaded) /
(number of required types)), clamped to [0, 100]. -/
def specProgressPercent (docs : List KycDocument) : Nat :=
  min (jsRound (100 * specUploadedRequiredCount docs) 3) 100

/-- The invariant exactly as claim C7 words it: at most one active
(non-REJECTED) document per documentType. -/
def activeInvariant (docs : List KycDocument) : Prop :=
  ∀ t : DocumentType,
    (docs.filter (fun d => decide (d.documentType = t ∧ d.status ≠ .REJECTED))).length ≤ 1

/-- The invariant the store actually maintains: at most one document per
documentType, whatever its status. -/
def uniquePerType (docs : List KycDocument) : Prop :=
  (docs.map (·.documentType)).Nodup

instance (docs : List KycDocument) : Decidable (uniquePerType docs) :=
  inferInstanceAs (Decidable (docs.map (fun d : KycDocument => d.documentType)).Nodup)

/-- The 10MB limit of the requirement catalog (maxSize is the string 10MB in
the source; claim C8 reads it as a byte count). -/
def tenMBBytes : Nat := 10 * 1024 * 1024

/-! Helper lemmas. -/

/-- addDoc on the empty store appends. -/
theorem addDoc_nil (d : KycDocument) : addDoc [] d = [d] := rfl

/-- Recursive characterization of addDoc: the head is replaced when its type
matches, otherwise the insertion happens in the tail. -/
theorem addDoc_cons (x : KycDocument) (xs : List KycDocument) (d : KycDocument) :
    addDoc (x :: xs) d =
      if x.documentType = d.documentType then d :: xs else x :: addDoc xs d := by
  unfold addDoc
  rw [List.findIdx?_cons]
  by_cases h : x.documentType = d.documentType
  · simp [h]
  · simp only [h, decide_False, if_neg, ite_false, List.findIdx?_succ]
    cases hfind : List.findIdx? (fun doc => decide (doc.documentType = d.documentType)) xs with
    | none => simp [h]
    | some i => simp [h]

/-- Sample concrete documents used by witnesses and counterexamples. -/
def sampleDoc (i : String) (t : DocumentType) (s : DocStatus) : KycDocument :=
  { id := i, documentType := t, fileName := i ++ ".pdf", status := s,
    uploadedAt := "2024-01-01T00:00:00Z", updatedAt := "2024-01-01T00:00:00Z",
    fileSize := some 1024, storageType := some .LOCAL }

/-! Claim C9. -/

/-- C9: deletion is idempotent, and removing an id that is absent from the
store is a no-op (treated as success, not an error): removeDocument twice
equals removeDocument once, and removeDocument of an absent id returns the
state unchanged. -/
theorem claim_C9_remove_idempotent (st : KycState) (x : String) :
    removeDocument (removeDocument st x) x = removeDocument st x ∧
    ((∀ d ∈ st.documents, d.id ≠ x) → removeDocument st x = st) := by
  constructor
  · show ({ st with documents := _ } : KycState) = { st with documents := _ }
    simp only [removeDocument, KycState.mk.injEq, and_true, true_and]
    rw [List.filter_filter]
    exact List.filter_congr (fun a _ => Bool.and_self _)
  · intro h
    have hfix : st.documents.filter (fun d => decide (d.id ≠ x)) = st.documents :=
      List.filter_eq_self.mpr (fun a ha => by simpa using h a ha)
    cases st
    simp only [removeDocument] at hfix ⊢
    rw [hfix]

/-- Witness for C9 at a concrete store: the id z is absent, so one and two
removals both leave the store untouched. -/
def c9State : KycState :=
  { documents := [sampleDoc "a" .ID_FRONT .PENDING], summary := none,
    uploadProgress := 0, loading := false, uploading := false, error := none }

theorem claim_C9_remove_idempotent_witness :
    removeDocument (removeDocument c9State "z") "z" = removeDocument c9State "z" ∧
    removeDocument c9State "z" = c9State :=
  ⟨(claim_C9_remove_idempotent c9State "z").1,
   (claim_C9_remove_idempotent c9State "z").2 (by decide)⟩

/-! Claim C5. -/

/-- C5: on startVerificationSuccess the document list keeps its length, every
document that was Pending moves to UnderReview with its updatedAt replaced by
the dispatch timestamp, and every document that was not Pending is returned
completely unchanged. -/
theorem claim_C5_verification_frame (st : KycState) (now : String) (i : Nat)
    (d : KycDocument) (hd : st.documents[i]? = some d) :
    (startVerificationSuccess st now).documents.length = st.documents.length ∧
    (d.status = .PENDING →
      (startVerificationSuccess st now).documents[i]? =
        some { d with status := .UNDER_REVIEW, updatedAt := now }) ∧
    (d.status ≠ .PENDING →
      (startVerificationSuccess st now).documents[i]? = some d) := by
  refine ⟨by simp [startVerificationSuccess], ?_, ?_⟩
  · intro h
    simp [startVerificationSuccess, List.getElem?_map, hd, h]
  · intro h
    simp [startVerificationSuccess, List.getElem?_map, hd, h]

def c5PendingDoc : KycDocument := sampleDoc "p" .ID_FRONT .PENDING

def c5ApprovedDoc : KycDocument := sampleDoc "q" .UTILITY_BILL .APPROVED

def c5State : KycState :=
  { documents := [c5PendingDoc, c5ApprovedDoc], summary := none,
    uploadProgress := 0, loading := false, uploading := false, error := none }

theorem claim_C5_verification_frame_witness :
    (startVerificationSuccess c5State "t9").documents[0]? =
      some { c5PendingDoc with status := .UNDER_REVIEW, updatedAt := "t9" } ∧
    (startVerificationSuccess c5State "t9").documents[1]? = some c5ApprovedDoc :=
  ⟨(claim_C5_verification_frame c5State "t9" 0 c5PendingDoc rfl).2.1 rfl,
   (claim_C5_verification_frame c5State "t9" 1 c5ApprovedDoc rfl).2.2 (by decide)⟩

/-! Claim C10. -/

/-- C10: in the uploadDocumentSuccess reducer, for every state with a
non-null summary, the recomputed summary flips kycStatus straight to
UNDER_REVIEW with canSubmitForReview true as soon as the recomputed missing
list is empty, and otherwise sets kycStatus to PENDING with the flag false
(no verification call is involved: the reducer alone performs the flip). -/
theorem claim_C10_upload_flips_status (st : KycState) (payload : KycDocument)
    (s0 : KycSummary) (h : st.summary = some s0) (s1 : KycSummary)
    (h1 : (uploadDocumentSuccess st payload).summary = some s1) :
    (s1.missingDocuments = [] →
      s1.kycStatus = .UNDER_REVIEW ∧ s1.canSubmitForReview = true) ∧
    (s1.missingDocuments ≠ [] →
      s1.kycStatus = .PENDING ∧ s1.canSubmitForReview = false) := by
  have hsum : (addDocument st payload).summary = some s0 := h
  simp only [uploadDocumentSuccess, hsum, Option.some.injEq] at h1
  set m := List.filter
      (fun t => decide (t ∉ List.map (fun x => x.documentType) (addDocument st payload).documents))
      s0.requiredDocuments with hmdef
  have hms : s1.missingDocuments = m := by rw [← h1]
  have hflag : s1.canSubmitForReview = decide (m.length = 0) := by rw [← h1]
  have hstat : s1.kycStatus =
      if decide (m.length = 0) = true then KycStatus.UNDER_REVIEW else KycStatus.PENDING := by
    rw [← h1]
  constructor
  · intro hm
    rw [hms] at hm
    rw [hstat, hflag]
    simp [hm]
  · intro hm
    rw [hms] at hm
    have hne : m.length ≠ 0 := by simpa [List.length_eq_zero] using hm
    rw [hstat, hflag]
    simp [hne]

def c10Summary : KycSummary :=
  { totalDocuments := 2, approvedDocuments := 0, pendingDocuments := 2,
    rejectedDocuments := 0, kycStatus := .PENDING, kycProgress := 67,
    requiredDocuments := requiredDocumentTypes,
    missingDocuments := [.BANK_STATEMENT], canSubmitForReview := false }

def c10State : KycState :=
  { documents := [sampleDoc "a" .ID_FRONT .PENDING, sampleDoc "b" .UTILITY_BILL .PENDING],
    summary := some c10Summary,
    uploadProgress := 40, loading := false, uploading := true, error := none }

def c10Payload : KycDocument := sampleDoc "c" .BANK_STATEMENT .PENDING

/-- The summary the reducer computes on the C10 witness state. -/
def c10Expected : KycSummary :=
  { totalDocuments := 3, approvedDocuments := 0, pendingDocuments := 3,
    rejectedDocuments := 0, kycStatus := .UNDER_REVIEW, kycProgress := 100,
    requiredDocuments := requiredDocumentTypes,
    missingDocuments := [], canSubmitForReview := true }

theorem claim_C10_upload_flips_status_witness :
    c10Expected.kycStatus = .UNDER_REVIEW ∧ c10Expected.canSubmitForReview = true :=
  (claim_C10_upload_flips_status c10State c10Payload c10Summary rfl c10Expected
    (by decide)).1 rfl

/-! Shared concrete states used by witnesses of the summary-recomputation
claims. -/

def wBaseSummary : KycSummary :=
  { totalDocuments := 1, approvedDocuments := 0, pendingDocuments := 1,
    rejectedDocuments := 0, kycStatus := .PENDING, kycProgress := 33,
    requiredDocuments := requiredDocumentTypes,
    missingDocuments := [.UTILITY_BILL, .BANK_STATEMENT], canSubmitForReview := false }

def wUpState : KycState :=
  { documents := [sampleDoc "a" .ID_FRONT .PENDING], summary := some wBaseSummary,
    uploadProgress := 0, loading := false, uploading := true, error := none }

def wUpPayload : KycDocument := sampleDoc "e" .ID_BACK .PENDING

/-- Summary the uploadDocumentSuccess reducer computes on wUpState with the
optional-type payload wUpPayload. -/
def wUpExpected : KycSummary :=
  { totalDocuments := 2, approvedDocuments := 0, pendingDocuments := 2,
    rejectedDocuments := 0, kycStatus := .PENDING, kycProgress := 67,
    requiredDocuments := requiredDocumentTypes,
    missingDocuments := [.UTILITY_BILL, .BANK_STATEMENT], canSubmitForReview := false }

/-- Summary the deleteDocumentSuccess reducer computes on wUpState when the
deleted id is absent. -/
def wDelExpected : KycSummary :=
  { totalDocuments := 1, approvedDocuments := 0, pendingDocuments := 1,
    rejectedDocuments := 0, kycStatus := .PENDING, kycProgress := 33,
    requiredDocuments := requiredDocumentTypes,
    missingDocuments := [.UTILITY_BILL, .BANK_STATEMENT], canSubmitForReview := false }

/-! Claim C2. -/

def c2Summary : KycSummary :=
  { totalDocuments := 2, approvedDocuments := 0, pendingDocuments := 2,
    rejectedDocuments := 0, kycStatus := .PENDING, kycProgress := 67,
    requiredDocuments := requiredDocumentTypes,
    missingDocuments := [.BANK_STATEMENT], canSubmitForReview := false }

def c2State : KycState :=
  { documents := [sampleDoc "a" .ID_FRONT .PENDING, sampleDoc "b" .UTILITY_BILL .PENDING],
    summary := some c2Summary,
    uploadProgress := 0, loading := false, uploading := true, error := none }

/-- C2 counterexample: on the uploadDocumentSuccess path the claimed
biconditional fails.  Uploading the last missing required type leaves
canSubmitForReview true while kycStatus is UNDER_REVIEW, so canSubmit true
does not imply the status is outside UnderReview/Approved on every code
path. -/
theorem claim_C2_counterexample :
    (uploadDocumentSuccess c2State (sampleDoc "c" .BANK_STATEMENT .PENDING)).summary.map
      (fun s => (s.canSubmitForReview, s.kycStatus)) =
    some (true, KycStatus.UNDER_REVIEW) := by decide

/-- C2 amended: the biconditional (canSubmit iff missing empty and status
neither UnderReview nor Approved) holds for calculateKycSummary, but the
upload and delete success reducers set canSubmitForReview to the emptiness of
the missing list alone, so there the flag can be true while the status is
UNDER_REVIEW. -/
theorem claim_C2_amended_gate :
    (∀ docs : List KycDocument,
      ((calculateKycSummary docs).canSubmitForReview = true ↔
        ((calculateKycSummary docs).missingDocuments = [] ∧
          (calculateKycSummary docs).kycStatus ≠ .UNDER_REVIEW ∧
          (calculateKycSummary docs).kycStatus ≠ .APPROVED))) ∧
    (∀ (st : KycState) (d : KycDocument) (s1 : KycSummary),
      (uploadDocumentSuccess st d).summary = some s1 →
      (s1.canSubmitForReview = true ↔ s1.missingDocuments = [])) ∧
    (∀ (st : KycState) (docId : String) (s1 : KycSummary),
      (deleteDocumentSuccess st docId).summary = some s1 →
      (s1.canSubmitForReview = true ↔ s1.missingDocuments = [])) := by
  refine ⟨?_, ?_, ?_⟩
  · intro docs
    simp only [calculateKycSummary]
    simp [List.length_eq_zero, and_assoc]
  · intro st d s1 h1
    cases hs : st.summary with
    | none =>
        have hnone : (addDocument st d).summary = none := hs
        simp only [uploadDocumentSuccess, hnone] at h1
        exact Option.noConfusion h1
    | some s0 =>
        have hsum : (addDocument st d).summary = some s0 := hs
        simp only [uploadDocumentSuccess, hsum, Option.some.injEq] at h1
        have hms : s1.missingDocuments =
            List.filter
              (fun t => decide (t ∉ List.map (fun x => x.documentType) (addDocument st d).documents))
              s0.requiredDocuments := by rw [← h1]
        have hflag : s1.canSubmitForReview = decide (s1.missingDocuments.length = 0) := by
          rw [hms, ← h1]
        rw [hflag]
        simp [List.length_eq_zero]
  · intro st docId s1 h1
    cases hs : st.summary with
    | none =>
        have hnone : (removeDocument st docId).summary = none := hs
        simp only [deleteDocumentSuccess, hnone] at h1
        exact Option.noConfusion h1
    | some s0 =>
        have hsum : (removeDocument st docId).summary = some s0 := hs
        simp only [deleteDocumentSuccess, hsum, Option.some.injEq] at h1
        have hms : s1.missingDocuments =
            List.filter
              (fun t => decide (t ∉ List.map (fun x => x.documentType)
                (removeDocument st docId).documents))
              s0.requiredDocuments := by rw [← h1]
        have hflag : s1.canSubmitForReview = decide (s1.missingDocuments.length = 0) := by
          rw [hms, ← h1]
        rw [hflag]
        simp [List.length_eq_zero]

theorem claim_C2_amended_gate_witness :
    ((calculateKycSummary []).canSubmitForReview = true ↔
      ((calculateKycSummary []).missingDocuments = [] ∧
        (calculateKycSummary []).kycStatus ≠ .UNDER_REVIEW ∧
        (calculateKycSummary []).kycStatus ≠ .APPROVED)) ∧
    (wUpExpected.canSubmitForReview = true ↔ wUpExpected.missingDocuments = []) ∧
    (wDelExpected.canSubmitForReview = true ↔ wDelExpected.missingDocuments = []) :=
  ⟨claim_C2_amended_gate.1 [],
   claim_C2_amended_gate.2.1 wUpState wUpPayload wUpExpected (by decide),
   claim_C2_amended_gate.2.2 wUpState "zz" wDelExpected (by decide)⟩

/-! Claim C3. -/

def c3docs : List KycDocument :=
  [sampleDoc "a" .ID_FRONT .PENDING, sampleDoc "b" .UTILITY_BILL .PENDING,
   sampleDoc "c" .BANK_STATEMENT .PENDING]

/-- C3 counterexample: with exactly one Pending document of each required
type and no submission yet, the code reports progress 100 but canSubmit
false and status UNDER_REVIEW, not the claimed canSubmit true with status
Incomplete. -/
theorem claim_C3_counterexample :
    (calculateKycSummary c3docs).kycProgress = 100 ∧
    (calculateKycSummary c3docs).canSubmitForReview = false ∧
    (calculateKycSummary c3docs).kycStatus = .UNDER_REVIEW := by decide

/-- C3 amended: for every store in which each required type has an uploaded
document and every document is Pending, summarize yields progress 100 but
status UNDER_REVIEW and canSubmit false (the code treats a complete,
unsubmitted set as already under review, which in turn blocks submission). -/
theorem claim_C3_amended (docs : List KycDocument)
    (h1 : DocumentType.ID_FRONT ∈ docs.map (·.documentType))
    (h2 : DocumentType.UTILITY_BILL ∈ docs.map (·.documentType))
    (h3 : DocumentType.BANK_STATEMENT ∈ docs.map (·.documentType))
    (hall : ∀ d ∈ docs, d.status = .PENDING) :
    (calculateKycSummary docs).kycProgress = 100 ∧
    (calculateKycSummary docs).canSubmitForReview = false ∧
    (calculateKycSummary docs).kycStatus = .UNDER_REVIEW := by
  have hne : docs ≠ [] := by
    rintro rfl
    simp at h1
  have hmiss : requiredDocumentTypes.filter
      (fun t => decide (t ∉ docs.map (·.documentType))) = [] := by
    simp only [requiredDocumentTypes]
    simp
    exact ⟨List.mem_map.mp h1, List.mem_map.mp h2, List.mem_map.mp h3⟩
  have hup : requiredDocumentTypes.filter
      (fun t => decide (t ∈ docs.map (·.documentType))) = requiredDocumentTypes := by
    simp only [requiredDocumentTypes]
    simp
    exact ⟨List.mem_map.mp h1, List.mem_map.mp h2, List.mem_map.mp h3⟩
  have hpend : docs.filter (fun d => decide (d.status = .PENDING)) = docs :=
    List.filter_eq_self.mpr (fun a ha => by simp [hall a ha])
  have hlen : 0 < docs.length := List.length_pos.mpr hne
  refine ⟨?_, ?_, ?_⟩
  · simp only [calculateKycSummary]
    rw [hup]
    rfl
  · simp only [calculateKycSummary]
    rw [hmiss, hpend]
    simp [hne, List.length_eq_zero, Nat.pos_iff_ne_zero.mp hlen]
  · simp only [calculateKycSummary]
    rw [hmiss, hpend]
    simp [hne, List.length_eq_zero, Nat.pos_iff_ne_zero.mp hlen]

def c3WitnessDocs : List KycDocument := c3docs ++ [sampleDoc "d" .PASSPORT .PENDING]

theorem claim_C3_amended_witness :
    (calculateKycSummary c3WitnessDocs).kycProgress = 100 ∧
    (calculateKycSummary c3WitnessDocs).canSubmitForReview = false ∧
    (calculateKycSummary c3WitnessDocs).kycStatus = .UNDER_REVIEW :=
  claim_C3_amended c3WitnessDocs (by decide) (by decide) (by decide) (by decide)

/-! Claim C4. -/

/-- C4 counterexample: after uploading an optional-type document
(wUpPayload has type ID_BACK) the uploadDocumentSuccess reducer stores
progress 67 while the claimed formula over required types yields 33: the
reducer path uses the total document count, not the required-type
fraction. -/
theorem claim_C4_counterexample :
    ((uploadDocumentSuccess wUpState wUpPayload).summary.map (·.kycProgress)) = some 67 ∧
    specProgressPercent (uploadDocumentSuccess wUpState wUpPayload).documents = 33 := by decide

/-- C4 amended: calculateKycSummary computes exactly the claimed clamped
required-type fraction, but the upload and delete success reducers instead
store min(round(totalDocuments x 100 / 3), 100) computed from the total
document count. -/
theorem claim_C4_amended_progress :
    (∀ docs : List KycDocument,
      (calculateKycSummary docs).kycProgress = specProgressPercent docs) ∧
    (∀ (st : KycState) (d : KycDocument) (s1 : KycSummary),
      (uploadDocumentSuccess st d).summary = some s1 →
      s1.kycProgress =
        min (jsRound ((uploadDocumentSuccess st d).documents.length * 100) 3) 100) ∧
    (∀ (st : KycState) (docId : String) (s1 : KycSummary),
      (deleteDocumentSuccess st docId).summary = some s1 →
      s1.kycProgress =
        min (jsRound ((deleteDocumentSuccess st docId).documents.length * 100) 3) 100) := by
  refine ⟨?_, ?_, ?_⟩
  · intro docs
    have hcnt : specUploadedRequiredCount docs =
        (requiredDocumentTypes.filter
          (fun t => decide (t ∈ docs.map (·.documentType)))).length := by
      unfold specUploadedRequiredCount
      rw [List.countP_eq_length_filter]
      have hfun : (fun t : DocumentType => decide (∃ d ∈ docs, d.documentType = t)) =
          (fun t : DocumentType => decide (t ∈ docs.map (·.documentType))) := by
        funext t
        exact decide_eq_decide.mpr (List.mem_map).symm
      rw [hfun]
    have hle : specUploadedRequiredCount docs ≤ 3 := by
      rw [hcnt]
      exact List.length_filter_le _ requiredDocumentTypes
    have hb : jsRound (100 * specUploadedRequiredCount docs) 3 ≤ 100 := by
      unfold jsRound
      have h6 : 2 * (100 * specUploadedRequiredCount docs) + 3 ≤ 603 := by omega
      calc (2 * (100 * specUploadedRequiredCount docs) + 3) / (2 * 3)
          ≤ 603 / (2 * 3) := Nat.div_le_div_right h6
        _ = 100 := by norm_num
    unfold specProgressPercent
    rw [min_eq_left hb, hcnt]
    simp only [calculateKycSummary]
    rw [Nat.mul_comm]
  · intro st d s1 h1
    cases hs : st.summary with
    | none =>
        have hnone : (addDocument st d).summary = none := hs
        simp only [uploadDocumentSuccess, hnone] at h1
        exact Option.noConfusion h1
    | some s0 =>
        have hsum : (addDocument st d).summary = some s0 := hs
        have hdocs : (uploadDocumentSuccess st d).documents = (addDocument st d).documents := by
          simp only [uploadDocumentSuccess, hsum]
        simp only [uploadDocumentSuccess, hsum, Option.some.injEq] at h1
        have hprog : s1.kycProgress =
            min (jsRound ((addDocument st d).documents.length * 100) 3) 100 := by rw [← h1]
        rw [hprog, hdocs]
  · intro st docId s1 h1
    cases hs : st.summary with
    | none =>
        have hnone : (removeDocument st docId).summary = none := hs
        simp only [deleteDocumentSuccess, hnone] at h1
        exact Option.noConfusion h1
    | some s0 =>
        have hsum : (removeDocument st docId).summary = some s0 := hs
        have hdocs : (deleteDocumentSuccess st docId).documents =
            (removeDocument st docId).documents := by
          simp only [deleteDocumentSuccess, hsum]
        simp only [deleteDocumentSuccess, hsum, Option.some.injEq] at h1
        have hprog : s1.kycProgress =
            min (jsRound ((removeDocument st docId).documents.length * 100) 3) 100 := by
          rw [← h1]
        rw [hprog, hdocs]

theorem claim_C4_amended_progress_witness :
    (calculateKycSummary c9State.documents).kycProgress =
      specProgressPercent c9State.documents ∧
    wUpExpected.kycProgress =
      min (jsRound ((uploadDocumentSuccess wUpState wUpPayload).documents.length * 100) 3) 100 ∧
    wDelExpected.kycProgress =
      min (jsRound ((deleteDocumentSuccess wUpState "zz").documents.length * 100) 3) 100 :=
  ⟨claim_C4_amended_progress.1 c9State.documents,
   claim_C4_amended_progress.2.1 wUpState wUpPayload wUpExpected (by decide),
   claim_C4_amended_progress.2.2 wUpState "zz" wDelExpected (by decide)⟩

/-! Claim C1. -/

/-- The kycStatus of calculateKycSummary, spelled out. -/
theorem calc_kycStatus (docs : List KycDocument) :
    (calculateKycSummary docs).kycStatus =
      (if docs.length = 0 then KycStatus.NOT_UPLOADED
       else if 0 < (requiredDocumentTypes.filter
           (fun t => decide (t ∉ docs.map (·.documentType)))).length then .PENDING
       else if 0 < (docs.filter (fun d => decide (d.status = .UNDER_REVIEW))).length ∨
           (0 < (docs.filter (fun d => decide (d.status = .PENDING))).length ∧
             (requiredDocumentTypes.filter
               (fun t => decide (t ∉ docs.map (·.documentType)))).length = 0) then .UNDER_REVIEW
       else if (docs.filter (fun d => decide (d.status = .APPROVED))).length =
           requiredDocumentTypes.length then .APPROVED
       else if 0 < (docs.filter (fun d => decide (d.status = .REJECTED))).length then .REJECTED
       else .PENDING) := rfl

/-- A filter by a decidable predicate has positive length iff some member
satisfies the predicate. -/
theorem filterlen_pos_iff (p : KycDocument → Prop) [DecidablePred p]
    (docs : List KycDocument) :
    0 < (docs.filter (fun d => decide (p d))).length ↔ ∃ d ∈ docs, p d := by
  rw [List.length_pos, Ne, List.filter_eq_nil_iff]
  push_neg
  simp

/-- The computed missing list is empty iff every required type is among the
uploaded types. -/
theorem missing_len_zero_iff (docs : List KycDocument) :
    (requiredDocumentTypes.filter
      (fun t => decide (t ∉ docs.map (·.documentType)))).length = 0 ↔
    ∀ t ∈ requiredDocumentTypes, t ∈ docs.map (·.documentType) := by
  rw [List.length_eq_zero, List.filter_eq_nil_iff]
  simp

/-- The computed missing list is nonempty iff some required type has no
document. -/
theorem missing_pos_iff (docs : List KycDocument) :
    0 < (requiredDocumentTypes.filter
      (fun t => decide (t ∉ docs.map (·.documentType)))).length ↔
    ∃ t ∈ requiredDocumentTypes, ∀ d ∈ docs, d.documentType ≠ t := by
  rw [Nat.pos_iff_ne_zero, Ne, missing_len_zero_iff]
  push_neg
  simp [List.mem_map]

def c1docs : List KycDocument :=
  [sampleDoc "a" .ID_FRONT .APPROVED, sampleDoc "b" .UTILITY_BILL .APPROVED,
   sampleDoc "c" .BANK_STATEMENT .REJECTED, sampleDoc "d" .PASSPORT .APPROVED]

/-- C1 counterexample: with the three required documents present, the
required bank statement Rejected and an extra optional Passport Approved,
the code returns APPROVED (it merely compares the count of approved
documents of any type with the number of required types), while the claimed
priority order yields Rejected (a required-type document is Rejected and
nothing is pending or under review). -/
theorem claim_C1_counterexample :
    (calculateKycSummary c1docs).kycStatus = .APPROVED ∧
    specStatusClaim c1docs = .REJECTED := by decide

/-- C1 amended: the aggregate status follows the priority order: empty list
NOT_UPLOADED; some required type missing PENDING; any document UnderReview
or any document Pending UNDER_REVIEW; count of Approved documents (of any
type) equal to the number of required types APPROVED; any document (of any
type) Rejected REJECTED; otherwise PENDING. -/
theorem claim_C1_amended_status (docs : List KycDocument) :
    (calculateKycSummary docs).kycStatus = amendedStatusSpec docs := by
  rw [calc_kycStatus]
  unfold amendedStatusSpec
  by_cases h0 : docs = []
  · subst h0
    rfl
  · have h0' : ¬ docs.length = 0 := by simpa [List.length_eq_zero] using h0
    rw [if_neg h0', if_neg h0]
    by_cases h1 : ∃ t ∈ requiredDocumentTypes, ∀ d ∈ docs, d.documentType ≠ t
    · rw [if_pos ((missing_pos_iff docs).mpr h1), if_pos h1]
    · rw [if_neg (fun hp => h1 ((missing_pos_iff docs).mp hp)), if_neg h1]
      have hm0 : (requiredDocumentTypes.filter
          (fun t => decide (t ∉ docs.map (·.documentType)))).length = 0 := by
        by_contra hne
        exact h1 ((missing_pos_iff docs).mp (Nat.pos_of_ne_zero hne))
      by_cases h2 : (∃ d ∈ docs, d.status = .UNDER_REVIEW) ∨ (∃ d ∈ docs, d.status = .PENDING)
      · have hcode2 : 0 < (docs.filter (fun d => decide (d.status = .UNDER_REVIEW))).length ∨
            (0 < (docs.filter (fun d => decide (d.status = .PENDING))).length ∧
              (requiredDocumentTypes.filter
                (fun t => decide (t ∉ docs.map (·.documentType)))).length = 0) := by
          rcases h2 with h | h
          · exact Or.inl ((filterlen_pos_iff _ docs).mpr h)
          · exact Or.inr ⟨(filterlen_pos_iff _ docs).mpr h, hm0⟩
        rw [if_pos hcode2, if_pos h2]
      · have hcode2 : ¬ (0 < (docs.filter (fun d => decide (d.status = .UNDER_REVIEW))).length ∨
            (0 < (docs.filter (fun d => decide (d.status = .PENDING))).length ∧
              (requiredDocumentTypes.filter
                (fun t => decide (t ∉ docs.map (·.documentType)))).length = 0)) := by
          rintro (h | ⟨h, -⟩)
          · exact h2 (Or.inl ((filterlen_pos_iff _ docs).mp h))
          · exact h2 (Or.inr ((filterlen_pos_iff _ docs).mp h))
        rw [if_neg hcode2, if_neg h2]
        by_cases h3 : docs.countP (fun d => decide (d.status = .APPROVED)) =
            requiredDocumentTypes.length
        · rw [if_pos (by rw [← List.countP_eq_length_filter]; exact h3), if_pos h3]
        · rw [if_neg (by rw [← List.countP_eq_length_filter]; exact h3), if_neg h3]
          by_cases h4 : ∃ d ∈ docs, d.status = .REJECTED
          · rw [if_pos ((filterlen_pos_iff _ docs).mpr h4), if_pos h4]
          · rw [if_neg (fun hp => h4 ((filterlen_pos_iff _ docs).mp hp)), if_neg h4]

/-! Claim C7. -/

/-- Every type present after addDoc was already present or is the type of
the inserted document. -/
theorem mem_types_addDoc (xs : List KycDocument) (d : KycDocument) (t : DocumentType)
    (h : t ∈ (addDoc xs d).map (·.documentType)) :
    t ∈ xs.map (·.documentType) ∨ t = d.documentType := by
  induction xs with
  | nil =>
      rw [addDoc_nil] at h
      simp at h
      exact Or.inr h
  | cons x xs ih =>
      rw [addDoc_cons] at h
      by_cases hx : x.documentType = d.documentType
      · rw [if_pos hx] at h
        simp only [List.map_cons, List.mem_cons] at h ⊢
        rcases h with h | h
        · exact Or.inr h
        · exact Or.inl (Or.inr h)
      · rw [if_neg hx] at h
        simp only [List.map_cons, List.mem_cons] at h ⊢
        rcases h with h | h
        · exact Or.inl (Or.inl h)
        · rcases ih h with h1 | h1
          · exact Or.inl (Or.inr h1)
          · exact Or.inr h1

/-- addDoc preserves type-uniqueness of the store. -/
theorem uniquePerType_addDoc (docs : List KycDocument) (d : KycDocument)
    (h : uniquePerType docs) : uniquePerType (addDoc docs d) := by
  induction docs with
  | nil => simp [addDoc_nil, uniquePerType]
  | cons x xs ih =>
      rw [uniquePerType, List.map_cons, List.nodup_cons] at h
      obtain ⟨hx, hxs⟩ := h
      rw [addDoc_cons]
      by_cases hty : x.documentType = d.documentType
      · rw [if_pos hty]
        rw [uniquePerType, List.map_cons, List.nodup_cons]
        exact ⟨hty ▸ hx, hxs⟩
      · rw [if_neg hty]
        rw [uniquePerType, List.map_cons, List.nodup_cons]
        refine ⟨?_, ih hxs⟩
        intro hmem
        rcases mem_types_addDoc xs d _ hmem with h1 | h1
        · exact hx h1
        · exact hty h1

/-- In a type-unique store, after addDoc the only document with the inserted
type is the inserted document itself. -/
theorem addDoc_filter_self (docs : List KycDocument) (d : KycDocument)
    (h : uniquePerType docs) :
    (addDoc docs d).filter (fun x => decide (x.documentType = d.documentType)) = [d] := by
  induction docs with
  | nil => simp [addDoc_nil]
  | cons x xs ih =>
      rw [uniquePerType, List.map_cons, List.nodup_cons] at h
      obtain ⟨hx, hxs⟩ := h
      rw [addDoc_cons]
      by_cases hty : x.documentType = d.documentType
      · rw [if_pos hty]
        rw [List.filter_cons_of_pos (by simp)]
        have hnil : xs.filter (fun x => decide (x.documentType = d.documentType)) = [] := by
          refine List.filter_eq_nil_iff.mpr (fun y hy => ?_)
          simp only [decide_eq_true_eq]
          intro he
          exact hx (hty ▸ he ▸ List.mem_map_of_mem (·.documentType) hy)
        rw [hnil]
      · rw [if_neg hty]
        rw [List.filter_cons_of_neg (by simpa using hty)]
        exact ih hxs

def c7Store : List KycDocument :=
  [sampleDoc "a" .BANK_STATEMENT .REJECTED, sampleDoc "b" .BANK_STATEMENT .PENDING]

def c7New : KycDocument := sampleDoc "c" .BANK_STATEMENT .PENDING

/-- C7 counterexample: the at-most-one-active-document-per-type invariant as
claimed is not preserved by addDocument.  A store with a Rejected and a
Pending bank statement satisfies the claimed invariant (one active), but
inserting a new Pending bank statement replaces the first matching entry,
the Rejected one, leaving two active bank statements. -/
theorem claim_C7_counterexample :
    activeInvariant c7Store ∧ ¬ activeInvariant (addDoc c7Store c7New) := by
  constructor
  · intro t
    cases t <;> decide
  · intro h
    exact absurd (h .BANK_STATEMENT) (by decide)

/-- C7 amended: with the invariant strengthened to at most one document per
documentType regardless of status (what the store maintains), addDocument
preserves it, and after two successive uploads of the same type exactly one
document of that type remains, namely the second payload itself (the first
being removed, not archived). -/
theorem claim_C7_amended_replace (docs : List KycDocument) (d1 d2 : KycDocument)
    (hinv : uniquePerType docs) (hty : d2.documentType = d1.documentType) :
    uniquePerType (addDoc docs d1) ∧
    uniquePerType (addDoc (addDoc docs d1) d2) ∧
    (addDoc (addDoc docs d1) d2).filter
      (fun x => decide (x.documentType = d1.documentType)) = [d2] := by
  refine ⟨uniquePerType_addDoc docs d1 hinv,
    uniquePerType_addDoc _ d2 (uniquePerType_addDoc docs d1 hinv), ?_⟩
  rw [← hty]
  exact addDoc_filter_self _ d2 (uniquePerType_addDoc docs d1 hinv)

def c7WitnessStore : List KycDocument := [sampleDoc "x" .ID_FRONT .PENDING]

def c7First : KycDocument := sampleDoc "u1" .UTILITY_BILL .PENDING

def c7Second : KycDocument :=
  { id := "u2", documentType := .UTILITY_BILL, fileName := "bill2.pdf",
    status := .PENDING, uploadedAt := "t2", updatedAt := "t2",
    fileSize := some 2048, storageType := some .S3 }

theorem claim_C7_amended_replace_witness :
    uniquePerType (addDoc c7WitnessStore c7First) ∧
    uniquePerType (addDoc (addDoc c7WitnessStore c7First) c7Second) ∧
    (addDoc (addDoc c7WitnessStore c7First) c7Second).filter
      (fun x => decide (x.documentType = c7First.documentType)) = [c7Second] :=
  claim_C7_amended_replace c7WitnessStore c7First c7Second (by decide) rfl

/-! Claim C6. -/

/-- Concrete page document builder. -/
def pageDoc (i ty : String) (s : DocStatus) : KycPage.PageDocument :=
  { id := i, documentType := ty, fileName := i ++ ".pdf", status := s,
    uploadedAt := "t0", updatedAt := "t0", fileSize := some 1024,
    storageType := some .LOCAL }

def c6SummaryA : KycPage.PageSummary :=
  { totalDocuments := 2, approvedDocuments := 0, pendingDocuments := 2,
    rejectedDocuments := 0, kycStatus := .PENDING, kycProgress := 67,
    missingDocuments := ["BANK_STATEMENT"], canSubmitForReview := false }

def c6SummaryB : KycPage.PageSummary :=
  { totalDocuments := 1, approvedDocuments := 0, pendingDocuments := 1,
    rejectedDocuments := 0, kycStatus := .PENDING, kycProgress := 33,
    missingDocuments := ["ID_FRONT", "UTILITY_BILL"], canSubmitForReview := false }

def c6StateA : KycPage.PageState :=
  { documents := [pageDoc "a" "ID_FRONT" .PENDING, pageDoc "b" "UTILITY_BILL" .PENDING],
    summary := some c6SummaryA, loading := false, uploading := false, error := none }

def c6StateB : KycPage.PageState :=
  { documents := [pageDoc "c" "BANK_STATEMENT" .PENDING],
    summary := some c6SummaryB, loading := false, uploading := false, error := none }

/-- C6 counterexample: the rejected submission does not report the missing
types.  Two states whose missing lists differ (one is missing only the bank
statement, the other is missing the identity front and the proof of address)
produce the identical fixed warning payload, so the failure carries no
missing-types information, contrary to the claimed IncompleteSubmission
error listing the missing types. -/
theorem claim_C6_counterexample :
    (KycPage.handleStartVerification c6StateA (.ok ())).2 =
      .blocked "Please upload all required documents first" ∧
    (KycPage.handleStartVerification c6StateB (.ok ())).2 =
      .blocked "Please upload all required documents first" ∧
    c6SummaryA.missingDocuments ≠ c6SummaryB.missingDocuments := by decide

/-- C6 amended: whenever canSubmitForReview is false (or the summary is
absent), handleStartVerification fails early, returning the page state
completely unchanged (in particular no document is mutated) together with a
fixed warning that does not include the missing types, and the
startVerificationFailure reducer likewise leaves the document list
untouched. -/
theorem claim_C6_amended_guard :
    (∀ (st : KycPage.PageState) (api : Except String Unit),
      ((st.summary.map (·.canSubmitForReview)).getD false) = false →
      KycPage.handleStartVerification st api =
        (st, .blocked "Please upload all required documents first")) ∧
    (∀ (st : KycState) (msg : String),
      (startVerificationFailure st msg).documents = st.documents) := by
  constructor
  · intro st api h
    unfold KycPage.handleStartVerification
    rw [if_pos h]
  · intro st msg
    rfl

def c6SliceState : KycState :=
  { documents := [sampleDoc "a" .ID_FRONT .PENDING], summary := none,
    uploadProgress := 0, loading := true, uploading := false, error := none }

theorem claim_C6_amended_guard_witness :
    KycPage.handleStartVerification c6StateA (.ok ()) =
      (c6StateA, .blocked "Please upload all required documents first") ∧
    (startVerificationFailure c6SliceState "network down").documents =
      c6SliceState.documents :=
  ⟨claim_C6_amended_guard.1 c6StateA (.ok ()) rfl,
   claim_C6_amended_guard.2 c6SliceState "network down"⟩

/-! Claim C8. -/

def c8File : KycPage.FileMeta :=
  { name := "bank_statement_scan.pdf", size := 15 * 1024 * 1024 }

def c8Doc : KycPage.PageDocument :=
  { id := "doc9", documentType := "BANK_STATEMENT",
    fileName := "bank_statement_scan.pdf", status := .PENDING,
    uploadedAt := "t1", updatedAt := "t1",
    fileSize := some (15 * 1024 * 1024), storageType := some .LOCAL }

def c8State : KycPage.PageState :=
  { documents := [], summary := none, loading := false, uploading := true,
    error := none }

/-- C8 counterexample: a 15MB file, above the 10MB catalog limit, is not
rejected client-side: handleFileUpload forwards it, and when the remote
endpoint accepts it the upload succeeds and the Document Store is mutated
(the oversized document is stored), contrary to the claimed synchronous
FileTooLarge failure that leaves the store unchanged. -/
theorem claim_C8_counterexample :
    c8File.size > tenMBBytes ∧
    (KycPage.handleFileUpload c8State c8File (some "BANK_STATEMENT") (.ok c8Doc)).2 =
      .succeeded ∧
    (KycPage.handleFileUpload c8State c8File (some "BANK_STATEMENT") (.ok c8Doc)).1.documents =
      [c8Doc] := by decide

/-- C8 amended: the client performs no file-size validation at all: the
result of handleFileUpload is independent of the file metadata (in
particular of its size), and only when the upload service itself fails does
the handler surface the error and leave the document list unchanged. -/
theorem claim_C8_amended_no_validation :
    (∀ (st : KycPage.PageState) (f1 f2 : KycPage.FileMeta) (sel : Option String)
        (r : Except String KycPage.PageDocument),
      KycPage.handleFileUpload st f1 sel r = KycPage.handleFileUpload st f2 sel r) ∧
    (∀ (st : KycPage.PageState) (f : KycPage.FileMeta) (selType msg : String),
      (KycPage.handleFileUpload st f (some selType) (.error msg)).1.documents = st.documents ∧
      (KycPage.handleFileUpload st f (some selType) (.error msg)).2 = .failed msg) := by
  constructor
  · intro st f1 f2 sel r
    rfl
  · intro st f selType msg
    exact ⟨rfl, rfl⟩

end CctPortal

